import Mathlib

/-!
Shallow embedding of the gif-land Discord webhook worker (src/index.ts).

JavaScript strings are modelled as Lean String (character-level; the
UTF-16 code-unit view of slice only differs on astral characters, which
no claim touches). A JS string field that may be null or undefined is
modelled as Option String. Machine randomness (Math.random) is passed in
as explicit entropy parameters. External effects (the catalog fetch, the
WebCrypto subtle API, JSON.parse of the request body) are passed in as
explicit inputs; the WebCrypto Ed25519 import and verify steps follow the
W3C Web Cryptography specification for secure curves: raw import of an
Ed25519 key throws a DataError unless the key data is exactly 32 bytes,
and verify returns false (without throwing) when the signature is not
exactly 64 bytes. The Ed25519 mathematics itself is an uninterpreted
oracle parameter. A thrown JS exception is modelled as the error arm of
an Except value.
-/

namespace GifLand

/-- JS exceptions that the embedded code can raise. -/
inductive JsError where
  | typeError : String → JsError
  | rangeError : String → JsError
  | dataError : String → JsError
deriving Repr, DecidableEq

/-- The Gif record of src/index.ts. The tags field is Option String
because the catalog JSON is an untrusted external input: none models a
missing, null or undefined tags field, some s a present string. -/
structure Gif where
  id : Nat
  url : String
  tags : Option String
  width : Nat
  height : Nat
deriving Repr, DecidableEq

/-- Worker environment bindings (Env in src/index.ts). -/
structure Env where
  DISCORD_PUBLIC_KEY : String
  DISCORD_TOKEN : String
  DISCORD_APP_ID : String
deriving Repr, DecidableEq

def SITE_URL : String := "https://gif.land"

def MAX_GIFS_SHOWN : Nat := 10

def EPHEMERAL : Nat := 64

-- ---------- JS string primitives, each modelling one JS operation ----------

/-- JS truthiness of a possibly-nullish string: null, undefined and the
empty string are falsy. -/
def jsStrTruthy : Option String → Bool
  | none => false
  | some s => s ≠ ""

/-- Models the JS expression (x || ""): the value itself when truthy,
otherwise the empty string; on strings both arms give x.getD "". -/
def jsOrEmpty : Option String → String
  | none => ""
  | some s => s

/-- JS String.prototype.toLowerCase, restricted to the ASCII mapping
(Char.toLower); agrees with JS on all inputs the claims touch. -/
def jsToLower (s : String) : String := ⟨s.toList.map Char.toLower⟩

/-- JS hay.includes(needle): substring occurrence test. -/
def jsIncludes (hay needle : String) : Bool :=
  decide (needle.toList <:+: hay.toList)

/-- JS String.prototype.trim: strip whitespace from both ends. -/
def jsTrim (s : String) : String :=
  ⟨((s.toList.dropWhile Char.isWhitespace).reverse.dropWhile Char.isWhitespace).reverse⟩

/-- JS s.slice(0, n). -/
def jsStrTake (s : String) (n : Nat) : String := ⟨s.toList.take n⟩

/-- JS s.startsWith(pre). -/
def jsStartsWith (s pre : String) : Bool := pre.toList.isPrefixOf s.toList

/-- JS s.split("||"): split on every non-overlapping occurrence of the
two-character separator, leftmost first. -/
def jsSplit2Bars : List Char → List (List Char)
  | [] => [[]]
  | [c] => [[c]]
  | c :: d :: rest =>
    if c = '|' ∧ d = '|' then [] :: jsSplit2Bars rest
    else
      match jsSplit2Bars (d :: rest) with
      | [] => [[c]]
      | part :: parts => (c :: part) :: parts

-- ---------- hex decoding (hexToUint8Array in src/index.ts) ----------

/-- Value of one hexadecimal digit, none when the character is not one. -/
def hexDigitVal (c : Char) : Option Nat :=
  if '0' ≤ c ∧ c ≤ '9' then some (c.toNat - '0'.toNat)
  else if 'a' ≤ c ∧ c ≤ 'f' then some (c.toNat - 'a'.toNat + 10)
  else if 'A' ≤ c ∧ c ≤ 'F' then some (c.toNat - 'A'.toNat + 10)
  else none

/-- JS parseInt(s, 16) on the at-most-two-character substrings taken by
hexToUint8Array: leading whitespace skipped, then the maximal prefix of
hex digits; none models NaN. -/
def jsParseIntHex2 (s : List Char) : Option Nat :=
  match s.dropWhile Char.isWhitespace with
  | [] => none
  | [c] => hexDigitVal c
  | c :: d :: _ =>
    match hexDigitVal c with
    | none => none
    | some v =>
      match hexDigitVal d with
      | none => some v
      | some w => some (16 * v + w)

/-- hexToUint8Array of src/index.ts. new Uint8Array(hex.length / 2)
truncates the fractional length (ToIndex), the loop writes byte i/2 from
parseInt(hex.substring(i, i+2), 16); the final write of an odd-length
input is out of range and silently dropped, and a NaN parse is coerced
to 0 by the typed-array store. -/
def hexToUint8Array (hex : String) : List Nat :=
  let chars := hex.toList
  (List.range (chars.length / 2)).map fun k =>
    (jsParseIntHex2 ((chars.drop (2 * k)).take 2)).getD 0

-- ---------- WebCrypto layer ----------

/-- The Ed25519 verification mathematics, uninterpreted:
arguments are key bytes, signature bytes, and the signed text. -/
def EdOracle : Type := List Nat → List Nat → String → Bool

/-- crypto.subtle.importKey("raw", keyBytes, Ed25519, ...): per the
WebCrypto secure-curves specification it throws a DataError unless the
raw key data is exactly 32 bytes. -/
def importKeyEd25519 (keyBytes : List Nat) : Except JsError Unit :=
  if keyBytes.length = 32 then Except.ok ()
  else Except.error (JsError.dataError "Ed25519 raw key data must be 32 bytes")

/-- crypto.subtle.verify("Ed25519", ...): per the WebCrypto
secure-curves specification it returns false, without throwing, when the
signature is not exactly 64 bytes. -/
def subtleVerifyEd25519 (ed : EdOracle) (keyBytes sigBytes : List Nat)
    (message : String) : Bool :=
  if sigBytes.length = 64 then ed keyBytes sigBytes message else false

/-- verifyDiscordSignature of src/index.ts. The importKey call is
awaited with no surrounding try, so its DataError propagates. -/
def verifyDiscordSignature (ed : EdOracle) (publicKey signature timestamp body : String) :
    Except JsError Bool :=
  match importKeyEd25519 (hexToUint8Array publicKey) with
  | Except.error e => Except.error e
  | Except.ok _ =>
      Except.ok (subtleVerifyEd25519 ed (hexToUint8Array publicKey)
        (hexToUint8Array signature) (timestamp ++ body))

-- ---------- Discord message values ----------

structure Embed where
  title : String
  imageUrl : String
deriving Repr, DecidableEq

structure Button where
  type : Nat
  style : Nat
  label : String
  custom_id : String
deriving Repr, DecidableEq

structure ActionRow where
  type : Nat
  components : List Button
deriving Repr, DecidableEq

/-- The data object of an interaction response; a field is none when the
source object literal omits it. -/
structure MessageData where
  content : Option String
  embeds : Option (List Embed)
  components : Option (List ActionRow)
  flags : Option Nat
deriving Repr, DecidableEq

structure InteractionResponse where
  type : Nat
  data : Option MessageData
deriving Repr, DecidableEq

inductive ResponseBody where
  | json : InteractionResponse → ResponseBody
  | text : String → ResponseBody
deriving Repr, DecidableEq

/-- An HTTP response as produced by the worker (status and body; headers
carry no claim-relevant information). -/
structure JsResponse where
  status : Nat
  body : ResponseBody
deriving Repr, DecidableEq

/-- jsonResponse of src/index.ts; every call site uses the default
status 200, passed explicitly here. -/
def jsonResponse (body : InteractionResponse) (status : Nat) : JsResponse :=
  { status := status, body := ResponseBody.json body }

-- ---------- catalog fetch ----------

/-- Outcome of the upstream GET when it did not throw: its HTTP status
and the result of reading the body as JSON. -/
structure CatalogHttpResponse where
  status : Nat
  json : Except String (List Gif)
deriving Repr

/-- Response.ok of the fetch API: status in the range 200 to 299. -/
def resOk (r : CatalogHttpResponse) : Bool := 200 ≤ r.status && r.status < 300

/-- fetchGifs of src/index.ts, over the outcome of the external GET
(error models a transport failure thrown by await fetch). -/
def fetchGifs (apiResult : Except String CatalogHttpResponse) : Except String (List Gif) :=
  match apiResult with
  | Except.error e => Except.error e
  | Except.ok res =>
      if resOk res then res.json
      else Except.error ("Failed to fetch GIFs: " ++ toString res.status)

-- ---------- shuffle (shuffled in src/index.ts) ----------

/-- The JS destructuring swap of two in-bounds indices; out-of-bounds
indices leave the list unchanged (they never occur in the loop). -/
def listSwap (l : List α) (i j : Nat) : List α :=
  match l.get? i, l.get? j with
  | some x, some y => (l.set i y).set j x
  | _, _ => l

/-- The Fisher-Yates loop: iteration i swaps position i with position
rand i % (i + 1), modelling Math.floor(Math.random() * (i + 1)), which
always lies in 0..i. -/
def fyLoop (rand : Nat → Nat) : Nat → List α → List α
  | 0, a => a
  | i + 1, a => fyLoop rand i (listSwap a (i + 1) (rand (i + 1) % (i + 2)))

/-- shuffled of src/index.ts: copy, then run the loop from index
length - 1 down to 1. -/
def shuffled (rand : Nat → Nat) (arr : List α) : List α :=
  fyLoop rand (arr.length - 1) arr

-- ---------- message builders ----------

/-- The embed title used by both builders:
url, with the tag string appended after a separator when truthy. -/
def gifTitle (g : Gif) : String :=
  g.url ++ (if jsStrTruthy g.tags then " | " ++ jsOrEmpty g.tags else "")

/-- The encoded action identifier attached to a button:
post:url||tags, sliced to at most 100 characters. -/
def encodeCustomId (g : Gif) : String :=
  jsStrTake ("post:" ++ g.url ++ "||" ++ jsOrEmpty g.tags) 100

/-- One picker button (type 2, style 1, label sliced to 80). -/
def buildButton (g : Gif) : Button :=
  { type := 2, style := 1,
    label := jsStrTake ("Post: " ++ g.url) 80,
    custom_id := encodeCustomId g }

/-- The grouping performed by the picker loop: slices of two consecutive
items per action row. -/
def chunk2 : List α → List (List α)
  | [] => []
  | [a] => [[a]]
  | a :: b :: rest => [a, b] :: chunk2 rest

/-- The header line of the picker message. -/
def headerText (gifs : List Gif) (query : String) : String :=
  if gifs.length = MAX_GIFS_SHOWN then
    "Showing " ++ toString MAX_GIFS_SHOWN ++ " GIFs for **" ++ query ++
      "** — try a more specific search to narrow results."
  else
    "Found " ++ toString gifs.length ++ " GIF" ++
      (if gifs.length = 1 then "" else "s") ++ " for **" ++ query ++ "**"

/-- buildGifPicker of src/index.ts. -/
def buildGifPicker (gifs : List Gif) (query : String) : MessageData :=
  { content := some (headerText gifs query),
    embeds := some (gifs.map fun g =>
      { title := gifTitle g, imageUrl := SITE_URL ++ "/" ++ g.url }),
    components := some ((chunk2 gifs).map fun pair =>
      { type := 1, components := pair.map buildButton }),
    flags := some EPHEMERAL }

/-- buildSingleGifMessage of src/index.ts: one embed, nothing else. -/
def buildSingleGifMessage (gif : Gif) : MessageData :=
  { content := none,
    embeds := some [{ title := gifTitle gif, imageUrl := SITE_URL ++ "/" ++ gif.url }],
    components := none,
    flags := none }

-- ---------- interaction handlers ----------

/-- An inbound interaction after JSON.parse: its type tag, the command
option list as name-value pairs, the component custom_id when present,
and the interaction token. -/
structure Interaction where
  type : Nat
  options : List (String × String)
  custom_id : Option String
  token : String
deriving Repr, DecidableEq

/-- handlePing of src/index.ts. -/
def handlePing : JsResponse := jsonResponse { type := 1, data := none } 200

/-- The query extraction at the top of handleSlashCommand:
find the option named search, take its value or empty, trim. -/
def queryOf (i : Interaction) : String :=
  jsTrim (((i.options.find? fun o => o.fst = "search").map Prod.snd).getD "")

/-- The filter predicate of the search step, over the lowercased query:
optional chaining makes a nullish tags field contribute false and the
url test alone decide. -/
def gifMatchesLower (lowerQuery : String) (g : Gif) : Bool :=
  (match g.tags with
   | none => false
   | some t => jsIncludes (jsToLower t) lowerQuery) ||
  jsIncludes (jsToLower g.url) lowerQuery

/-- The match set computed by handleSlashCommand for a query. -/
def searchMatches (query : String) (gifs : List Gif) : List Gif :=
  gifs.filter (gifMatchesLower (jsToLower query))

/-- handleSlashCommand of src/index.ts. pick is the raw entropy of the
random single pick (Math.floor(Math.random() * length) is pick % length
for a nonempty catalog and 0 for an empty one); shuf is the entropy of
the shuffle; catalogResult is the outcome of await fetchGifs(). Indexing
an empty array yields undefined and buildSingleGifMessage then throws a
TypeError reading url, modelled by the error arm. -/
def handleSlashCommand (pick : Nat) (shuf : Nat → Nat)
    (catalogResult : Except String (List Gif)) (interaction : Interaction) :
    Except JsError JsResponse :=
  let query := queryOf interaction
  match catalogResult with
  | Except.error _ =>
      Except.ok (jsonResponse
        { type := 4,
          data := some
            { content := some "Could not reach gif.land right now. Try again in a moment.",
              embeds := none, components := none, flags := some EPHEMERAL } } 200)
  | Except.ok allGifs =>
      if query = "" then
        match allGifs.get? (pick % max allGifs.length 1) with
        | none => Except.error (JsError.typeError "Cannot read properties of undefined (reading url)")
        | some gif =>
            Except.ok (jsonResponse { type := 4, data := some (buildSingleGifMessage gif) } 200)
      else
        let matchSet := searchMatches query allGifs
        if matchSet.length = 0 then
          Except.ok (jsonResponse
            { type := 4,
              data := some
                { content := some ("No GIFs found for \"" ++ query ++ "\". Try a different search."),
                  embeds := none, components := none, flags := some EPHEMERAL } } 200)
        else
          let shown := (shuffled shuf matchSet).take MAX_GIFS_SHOWN
          Except.ok (jsonResponse { type := 4, data := some (buildGifPicker shown query) } 200)

/-- Decoding of a button payload after the post: prefix is removed:
split on the two-bar separator with limit 2; a missing second part
defaults to the empty tag string. -/
def decodePostPayload (payload : String) : String × String :=
  let parts := (jsSplit2Bars payload.toList).take 2
  (⟨parts.getD 0 []⟩, ⟨parts.getD 1 []⟩)

/-- The full click-side decoding: prefix check, prefix removal, payload
split. none models the unknown-action branch. -/
def clickDecode (customId : String) : Option (String × String) :=
  if jsStartsWith customId "post:" then some (decodePostPayload ⟨customId.toList.drop 5⟩)
  else none

/-- The fire-and-forget followup webhook call scheduled via
ctx.waitUntil: its target URL and JSON message body. -/
structure FollowupCall where
  url : String
  body : MessageData
deriving Repr, DecidableEq

/-- handleButtonClick of src/index.ts: the synchronous response paired
with the followup call it schedules, if any. -/
def handleButtonClick (interaction : Interaction) (env : Env) :
    JsResponse × Option FollowupCall :=
  let customId := (interaction.custom_id).getD ""
  match clickDecode customId with
  | none =>
      (jsonResponse
        { type := 7,
          data := some { content := some "Unknown action.", embeds := some [],
                         components := some [], flags := none } } 200,
       none)
  | some (gifFilename, tags) =>
      let gif : Gif := { id := 0, url := gifFilename, tags := some tags, width := 0, height := 0 }
      (jsonResponse
        { type := 7,
          data := some { content := some ("Posted **" ++ gifFilename ++ "**"),
                         embeds := some [], components := some [], flags := none } } 200,
       some { url := "https://discord.com/api/v10/webhooks/" ++ env.DISCORD_APP_ID ++ "/" ++ interaction.token,
              body := buildSingleGifMessage gif })

-- ---------- top-level worker handler ----------

/-- The inbound HTTP request: method, the two signature headers (none
models an absent header, read back as empty by the null coalescing in
the source), and the raw body text. -/
structure WorkerRequest where
  method : String
  sigHeader : Option String
  tsHeader : Option String
  body : String

/-- The observable outcome of one worker invocation: the HTTP response
(or the JS exception that escaped), together with whether the body was
parsed into an interaction and whether the catalog fetch was issued —
the two effects the signature gate must prevent. -/
structure TopResult where
  response : Except JsError JsResponse
  parsedBody : Bool
  fetchedCatalog : Bool

/-- The exported fetch handler of src/index.ts. parse models JSON.parse
on the verified body; catalogApi, pick and shuf are the external inputs
threaded to handleSlashCommand. -/
def fetch (ed : EdOracle) (req : WorkerRequest) (env : Env)
    (parse : String → Interaction)
    (catalogApi : Except String CatalogHttpResponse)
    (pick : Nat) (shuf : Nat → Nat) : TopResult :=
  if req.method ≠ "POST" then
    { response := Except.ok { status := 404, body := ResponseBody.text "Not found" },
      parsedBody := false, fetchedCatalog := false }
  else
    let signature := req.sigHeader.getD ""
    let timestamp := req.tsHeader.getD ""
    match verifyDiscordSignature ed env.DISCORD_PUBLIC_KEY signature timestamp req.body with
    | Except.error e =>
        { response := Except.error e, parsedBody := false, fetchedCatalog := false }
    | Except.ok false =>
        { response := Except.ok { status := 401, body := ResponseBody.text "Invalid signature" },
          parsedBody := false, fetchedCatalog := false }
    | Except.ok true =>
        let interaction := parse req.body
        if interaction.type = 1 then
          { response := Except.ok handlePing, parsedBody := true, fetchedCatalog := false }
        else if interaction.type = 2 then
          { response := handleSlashCommand pick shuf (fetchGifs catalogApi) interaction,
            parsedBody := true, fetchedCatalog := true }
        else if interaction.type = 3 then
          { response := Except.ok (handleButtonClick interaction env).fst,
            parsedBody := true, fetchedCatalog := false }
        else
          { response := Except.ok { status := 400, body := ResponseBody.text "Unknown interaction type" },
            parsedBody := true, fetchedCatalog := false }

-- ---------- extractors used by theorem statements ----------

/-- The message data carried by a successful JSON response, if any. -/
def dataOf : Except JsError JsResponse → Option MessageData
  | Except.ok { status := _, body := ResponseBody.json { type := _, data := some md } } => some md
  | _ => none

/-- The content line of a response. -/
def contentOf (r : Except JsError JsResponse) : Option String :=
  (dataOf r).bind MessageData.content

/-- The embeds of a response (empty when absent). -/
def embedsOf (r : Except JsError JsResponse) : List Embed :=
  ((dataOf r).bind MessageData.embeds).getD []

/-- The action rows of a response (empty when absent). -/
def componentsOf (r : Except JsError JsResponse) : List ActionRow :=
  ((dataOf r).bind MessageData.components).getD []

-- ---------- specification-side predicates ----------

/-- Case-insensitive substring occurrence, the specification wording:
term occurs inside hay after lowercasing both. -/
def ciSubstr (term hay : String) : Prop :=
  (jsToLower term).toList <:+: (jsToLower hay).toList

instance (term hay : String) : Decidable (ciSubstr term hay) := by
  unfold ciSubstr; infer_instance

/-- The item has a present tag string containing the term
case-insensitively. -/
def tagCiMatch (g : Gif) (q : String) : Prop :=
  ∃ t, g.tags = some t ∧ ciSubstr q t

/-- The catalog fetch failed: transport error, or non-success HTTP
status. -/
def fetchFailure (apiResult : Except String CatalogHttpResponse) : Prop :=
  match apiResult with
  | Except.error _ => True
  | Except.ok r => ¬ (200 ≤ r.status ∧ r.status < 300)

instance (apiResult : Except String CatalogHttpResponse) : Decidable (fetchFailure apiResult) := by
  unfold fetchFailure
  match apiResult with
  | Except.error _ => exact inferInstanceAs (Decidable True)
  | Except.ok r => exact inferInstanceAs (Decidable (¬ _))

-- ---------- concrete inputs used by witnesses and counterexamples ----------

/-- A 64-character hex string decoding to a well-sized 32-byte key. -/
def zeros64 : String := "0000000000000000000000000000000000000000000000000000000000000000"

/-- A 128-character hex string decoding to a well-sized 64-byte signature. -/
def zeros128 : String := zeros64 ++ zeros64

/-- Oracle that rejects every signature. -/
def edFalse : EdOracle := fun _ _ _ => false

/-- Oracle that accepts every signature. -/
def edTrue : EdOracle := fun _ _ _ => true

/-- Environment with a well-formed 32-byte public key. -/
def envZeros : Env :=
  { DISCORD_PUBLIC_KEY := zeros64, DISCORD_TOKEN := "t", DISCORD_APP_ID := "app" }

/-- Environment whose configured public key is malformed hex decoding to
one byte. -/
def envBadKey : Env :=
  { DISCORD_PUBLIC_KEY := "ab", DISCORD_TOKEN := "t", DISCORD_APP_ID := "app" }

/-- A catalog item tagged cat. -/
def gifCat : Gif := { id := 0, url := "g", tags := some "cat", width := 0, height := 0 }

/-- A catalog item whose tags mention cat but whose url does not. -/
def gifTagOnly : Gif := { id := 0, url := "x.gif", tags := some "dog cat", width := 0, height := 0 }

/-- A catalog item with a missing tags field. -/
def gifNoTags : Gif := { id := 0, url := "funny-cat.gif", tags := none, width := 0, height := 0 }

/-- Ten catalog items all matching the query cat. -/
def tenCats : List Gif := List.replicate 10 gifCat

/-- A command interaction searching for cat. -/
def searchCat : Interaction :=
  { type := 2, options := [("search", "cat")], custom_id := none, token := "" }

/-- A command interaction with no search option. -/
def blankCommand : Interaction :=
  { type := 2, options := [], custom_id := none, token := "" }

-- ---------- helper lemmas ----------

theorem toList_append (a b : String) : (a ++ b).toList = a.toList ++ b.toList := rfl

theorem mk_toList (s : String) : String.mk s.toList = s := rfl

theorem listSwap_length (l : List α) (i j : Nat) : (listSwap l i j).length = l.length := by
  unfold listSwap
  cases l.get? i <;> cases l.get? j <;> simp

theorem fyLoop_length (rand : Nat → Nat) : ∀ (n : Nat) (l : List α), (fyLoop rand n l).length = l.length
  | 0, l => rfl
  | n + 1, l => by
    rw [fyLoop, fyLoop_length rand n, listSwap_length]

theorem shuffled_length (rand : Nat → Nat) (l : List α) : (shuffled rand l).length = l.length := by
  rw [shuffled, fyLoop_length]

theorem chunk2_flatten : ∀ (l : List α), (chunk2 l).flatten = l
  | [] => rfl
  | [a] => rfl
  | a :: b :: rest => by
    rw [chunk2]
    simp [List.flatten, chunk2_flatten rest]

theorem chunk2_length : ∀ (l : List α), (chunk2 l).length = (l.length + 1) / 2
  | [] => by simp [chunk2]
  | [a] => by simp [chunk2]
  | a :: b :: rest => by
    rw [chunk2]
    simp only [List.length_cons, chunk2_length rest]
    omega

theorem chunk2_mem_length : ∀ (l : List α), ∀ c ∈ chunk2 l, c.length ≤ 2
  | [], _, h => absurd h (List.not_mem_nil _)
  | [a], c, h => by
    rw [chunk2, List.mem_singleton] at h
    subst h; simp
  | a :: b :: rest, c, h => by
    rw [chunk2, List.mem_cons] at h
    cases h with
    | inl h => subst h; simp
    | inr h => exact chunk2_mem_length rest c h

theorem isPrefixOf_append (l r : List Char) : l.isPrefixOf (l ++ r) = true := by
  induction l with
  | nil => simp [List.isPrefixOf]
  | cons c cs ih => simp [List.isPrefixOf, ih]

theorem jsIncludes_iff (hay needle : String) :
    jsIncludes hay needle = true ↔ needle.toList <:+: hay.toList := by
  unfold jsIncludes
  exact decide_eq_true_iff

theorem infix_of_cons {x l : List α} {a : α} (h : x <:+: l) : x <:+: a :: l := by
  obtain ⟨s, t, rfl⟩ := h
  exact ⟨a :: s, t, rfl⟩

theorem jsSplit2Bars_no_sep : ∀ (l : List Char), ¬ (['|', '|'] <:+: l) → jsSplit2Bars l = [l]
  | [], _ => rfl
  | [c], _ => rfl
  | c :: d :: rest, h => by
    have hcd : ¬ (c = '|' ∧ d = '|') := by
      rintro ⟨rfl, rfl⟩
      exact h ⟨[], rest, rfl⟩
    have htail : ¬ (['|', '|'] <:+: d :: rest) := fun hinf => h (infix_of_cons hinf)
    rw [jsSplit2Bars, if_neg hcd, jsSplit2Bars_no_sep (d :: rest) htail]

theorem jsSplit2Bars_across_sep :
    ∀ (p : List Char), ¬ (['|', '|'] <:+: p) → p.getLast? ≠ some '|' →
      ∀ (t : List Char), jsSplit2Bars (p ++ '|' :: '|' :: t) = p :: jsSplit2Bars t
  | [], _, _, t => by
    rw [List.nil_append, jsSplit2Bars, if_pos ⟨rfl, rfl⟩]
  | [c], _, hlast, t => by
    have hc : ¬ (c = '|' ∧ '|' = '|') := by
      rintro ⟨rfl, -⟩
      exact hlast rfl
    rw [List.cons_append, List.nil_append, jsSplit2Bars, if_neg hc,
      jsSplit2Bars, if_pos ⟨rfl, rfl⟩]
  | c :: d :: p, hinf, hlast, t => by
    have hcd : ¬ (c = '|' ∧ d = '|') := by
      rintro ⟨rfl, rfl⟩
      exact hinf ⟨[], p, rfl⟩
    have htailinf : ¬ (['|', '|'] <:+: d :: p) := fun hi => hinf (infix_of_cons hi)
    have htaillast : (d :: p).getLast? ≠ some '|' := by
      rwa [List.getLast?_cons_cons] at hlast
    have ih := jsSplit2Bars_across_sep (d :: p) htailinf htaillast t
    rw [List.cons_append] at ih
    show jsSplit2Bars (c :: d :: (p ++ '|' :: '|' :: t)) = (c :: d :: p) :: jsSplit2Bars t
    rw [jsSplit2Bars, if_neg hcd, ih]

theorem string_data_eq (a b : String) (h : a.toList = b.toList) : a = b := by
  cases a with
  | mk da =>
    cases b with
    | mk db =>
      cases h
      rfl

theorem str_assoc (a b c : String) : a ++ b ++ c = a ++ (b ++ c) :=
  string_data_eq _ _ (by rw [toList_append, toList_append, toList_append, toList_append,
    List.append_assoc])

theorem gifMatchesLower_iff (q : String) (g : Gif) :
    gifMatchesLower (jsToLower q) g = true ↔ (tagCiMatch g q ∨ ciSubstr q g.url) := by
  cases htags : g.tags with
  | none =>
    simp [gifMatchesLower, htags, tagCiMatch, ciSubstr, jsIncludes]
  | some t =>
    simp [gifMatchesLower, htags, tagCiMatch, ciSubstr, jsIncludes]

theorem searchMatches_mem_iff (q : String) (gifs : List Gif) (g : Gif) :
    g ∈ searchMatches q gifs ↔ g ∈ gifs ∧ (tagCiMatch g q ∨ ciSubstr q g.url) := by
  unfold searchMatches
  rw [List.mem_filter, gifMatchesLower_iff]

theorem handleSlash_search_branch (pick : Nat) (shuf : Nat → Nat) (gifs : List Gif)
    (i : Interaction) (hq : queryOf i ≠ "")
    (hne : (searchMatches (queryOf i) gifs).length ≠ 0) :
    handleSlashCommand pick shuf (Except.ok gifs) i =
      Except.ok (jsonResponse
        { type := 4,
          data := some (buildGifPicker
            ((shuffled shuf (searchMatches (queryOf i) gifs)).take MAX_GIFS_SHOWN)
            (queryOf i)) } 200) := by
  unfold handleSlashCommand
  simp only [if_neg hq, if_neg hne]

theorem headerText_of_len_ten (gifs : List Gif) (q : String) (h : gifs.length = 10) :
    headerText gifs q =
      "Showing 10 GIFs for **" ++ q ++ "** — try a more specific search to narrow results." := by
  unfold headerText MAX_GIFS_SHOWN
  rw [h, if_pos rfl]
  rw [show "Showing " ++ toString (10 : Nat) ++ " GIFs for **" = "Showing 10 GIFs for **" from rfl]

theorem headerText_of_len_one (gifs : List Gif) (q : String) (h : gifs.length = 1) :
    headerText gifs q = "Found 1 GIF for **" ++ q ++ "**" := by
  unfold headerText MAX_GIFS_SHOWN
  rw [h, if_neg (by omega), if_pos rfl]
  rw [show "Found " ++ toString (1 : Nat) ++ " GIF" ++ "" ++ " for **" = "Found 1 GIF for **" from rfl]

theorem headerText_of_len_small (gifs : List Gif) (q : String)
    (h2 : 2 ≤ gifs.length) (h9 : gifs.length ≤ 9) :
    headerText gifs q = "Found " ++ toString gifs.length ++ " GIFs for **" ++ q ++ "**" := by
  unfold headerText MAX_GIFS_SHOWN
  rw [if_neg (by omega), if_neg (by omega)]
  rw [str_assoc ("Found " ++ toString gifs.length) " GIF" "s",
    show (" GIF" : String) ++ "s" = " GIFs" from rfl,
    str_assoc ("Found " ++ toString gifs.length) " GIFs" " for **",
    show (" GIFs" : String) ++ " for **" = " GIFs for **" from rfl]

theorem picker_result_parts (pick : Nat) (shuf : Nat → Nat) (gifs : List Gif)
    (i : Interaction) (hq : queryOf i ≠ "")
    (hne : (searchMatches (queryOf i) gifs).length ≠ 0) :
    (embedsOf (handleSlashCommand pick shuf (Except.ok gifs) i)).length =
      min MAX_GIFS_SHOWN (searchMatches (queryOf i) gifs).length ∧
    contentOf (handleSlashCommand pick shuf (Except.ok gifs) i) =
      some (headerText ((shuffled shuf (searchMatches (queryOf i) gifs)).take MAX_GIFS_SHOWN)
        (queryOf i)) ∧
    ((shuffled shuf (searchMatches (queryOf i) gifs)).take MAX_GIFS_SHOWN).length =
      min MAX_GIFS_SHOWN (searchMatches (queryOf i) gifs).length := by
  have hres := handleSlash_search_branch pick shuf gifs i hq hne
  have hlen : ((shuffled shuf (searchMatches (queryOf i) gifs)).take MAX_GIFS_SHOWN).length =
      min MAX_GIFS_SHOWN (searchMatches (queryOf i) gifs).length := by
    rw [List.length_take, shuffled_length]
  refine ⟨?_, ?_, hlen⟩
  · rw [hres]
    show (((shuffled shuf (searchMatches (queryOf i) gifs)).take MAX_GIFS_SHOWN).map _).length = _
    rw [List.length_map, hlen]
  · rw [hres]
    rfl

theorem rows_bounds_of_nil {r : Except JsError JsResponse} (h : componentsOf r = []) :
    (componentsOf r).length ≤ 5 ∧
    (∀ row ∈ componentsOf r, row.components.length ≤ 2) ∧
    ((componentsOf r).map (fun row => row.components.length)).sum ≤ 10 := by
  rw [h]
  exact ⟨by simp, by simp, by simp⟩

-- ---------- claim theorems ----------

/-- Claim C1: the claim says a blank search term with an empty fetched
catalog is a handled outcome; in the code the random pick indexes the
empty array, yielding undefined, and buildSingleGifMessage then throws a
TypeError reading the url field, so the request crashes instead. This
theorem evaluates the handler at that failing input. -/
theorem emptyCatalog_randomPick_throws :
    handleSlashCommand 0 (fun _ => 0) (Except.ok []) blankCommand =
      Except.error (JsError.typeError "Cannot read properties of undefined (reading url)") := rfl

/-- Claim C2: the claim says a malformed hex public key or signature is
treated as verification failure with a 401 response; in the code a
configured public key whose hex decodes to other than 32 bytes makes
crypto.subtle.importKey throw a DataError that no handler catches, so
the exception escapes to the caller instead of a 401. This theorem
evaluates the worker at that failing input. -/
theorem malformedPublicKey_escapes :
    (fetch edFalse { method := "POST", sigHeader := some "", tsHeader := some "", body := "" }
      envBadKey (fun _ => blankCommand) (Except.error "unused") 0 (fun _ => 0)).response =
      Except.error (JsError.dataError "Ed25519 raw key data must be 32 bytes") := rfl

/-- Claim C3, counterexample: a path containing the delimiter does not
round-trip: encoding (path a||b, tags c) and decoding yields (a, b). -/
theorem customId_roundtrip_cex :
    clickDecode (encodeCustomId { id := 0, url := "a||b", tags := some "c", width := 0, height := 0 }) ≠
      some ("a||b", "c") := by decide

/-- Claim C3, amended: decoding the encoded action identifier recovers
(path, tags) exactly, including empty tags, provided neither path nor
tags contains the two-character delimiter, the path does not end in a
bar character, and the encoded identifier does not exceed the
100-character cap (beyond which the source silently truncates). -/
theorem customId_roundtrip (url tags : String)
    (h1 : ¬ (['|', '|'] <:+: url.toList))
    (h2 : ¬ (['|', '|'] <:+: tags.toList))
    (h3 : url.toList.getLast? ≠ some '|')
    (h4 : url.toList.length + tags.toList.length + 7 ≤ 100) :
    clickDecode (encodeCustomId { id := 0, url := url, tags := some tags, width := 0, height := 0 }) =
      some (url, tags) := by
  have hs : (encodeCustomId { id := 0, url := url, tags := some tags, width := 0, height := 0 }).toList
      = 'p' :: 'o' :: 's' :: 't' :: ':' :: (url.toList ++ '|' :: '|' :: tags.toList) := by
    show (("post:" ++ url ++ "||" ++ tags).toList).take 100 = _
    rw [List.take_of_length_le]
    · show (("post:".toList ++ url.toList) ++ "||".toList) ++ tags.toList = _
      simp only [List.append_assoc]
      rfl
    · show ((("post:".toList ++ url.toList) ++ "||".toList) ++ tags.toList).length ≤ 100
      simp only [List.length_append]
      have hp : "post:".toList.length = 5 := rfl
      have hb : "||".toList.length = 2 := rfl
      omega
  have hstart : jsStartsWith (encodeCustomId { id := 0, url := url, tags := some tags, width := 0, height := 0 }) "post:" = true := by
    unfold jsStartsWith
    rw [hs]
    exact isPrefixOf_append ['p', 'o', 's', 't', ':'] _
  unfold clickDecode
  rw [if_pos hstart, hs]
  show some (decodePostPayload (String.mk (url.toList ++ '|' :: '|' :: tags.toList))) = _
  unfold decodePostPayload
  rw [show (String.mk (url.toList ++ '|' :: '|' :: tags.toList)).toList
      = url.toList ++ '|' :: '|' :: tags.toList from rfl]
  rw [jsSplit2Bars_across_sep url.toList h1 h3 tags.toList, jsSplit2Bars_no_sep tags.toList h2]
  show some (String.mk url.toList, String.mk tags.toList) = some (url, tags)
  rw [mk_toList, mk_toList]

/-- Witness for the amended C3 at a concrete input with empty tags. -/
theorem customId_roundtrip_witness :
    clickDecode (encodeCustomId { id := 0, url := "cat", tags := some "", width := 0, height := 0 }) =
      some ("cat", "") :=
  customId_roundtrip "cat" "" (by decide) (by decide) (by decide) (by decide)

/-- Claim C6: whenever the catalog fetch fails with a transport error or
a non-success HTTP status, the command handler replies at once with the
fixed privately-shown (flags 64) error message, carried in an HTTP 200
response, with no retry and without the raw error. -/
theorem fetchFailure_ephemeral_reply (pick : Nat) (shuf : Nat → Nat)
    (apiResult : Except String CatalogHttpResponse) (i : Interaction)
    (h : fetchFailure apiResult) :
    handleSlashCommand pick shuf (fetchGifs apiResult) i =
      Except.ok (jsonResponse
        { type := 4,
          data := some
            { content := some "Could not reach gif.land right now. Try again in a moment.",
              embeds := none, components := none, flags := some EPHEMERAL } } 200) := by
  obtain ⟨e, he⟩ : ∃ e, fetchGifs apiResult = Except.error e := by
    unfold fetchFailure at h
    match apiResult with
    | Except.error e => exact ⟨e, rfl⟩
    | Except.ok r =>
      have hro : resOk r = false := by
        cases hb : resOk r
        · rfl
        · exact absurd (by simpa [resOk] using hb) h
      refine ⟨"Failed to fetch GIFs: " ++ toString r.status, ?_⟩
      unfold fetchGifs
      show (if resOk r = true then r.json
        else Except.error ("Failed to fetch GIFs: " ++ toString r.status)) = _
      rw [hro]
      simp
  rw [he]
  rfl

/-- Witness for C6 at a concrete 500-status fetch outcome. -/
theorem fetchFailure_ephemeral_reply_witness :
    handleSlashCommand 0 (fun _ => 0) (fetchGifs (Except.ok { status := 500, json := Except.ok [] }))
      blankCommand =
      Except.ok (jsonResponse
        { type := 4,
          data := some
            { content := some "Could not reach gif.land right now. Try again in a moment.",
              embeds := none, components := none, flags := some EPHEMERAL } } 200) :=
  fetchFailure_ephemeral_reply 0 (fun _ => 0) _ blankCommand (by decide)

/-- Claim C9: a button click whose action identifier does not start with
the post: prefix gets an UPDATE_MESSAGE (type 7) reply whose content is
Unknown action. and whose embeds and components are both the empty
list. -/
theorem buttonClick_unknownAction (i : Interaction) (env : Env)
    (h : jsStartsWith ((i.custom_id).getD "") "post:" = false) :
    (handleButtonClick i env).fst =
      jsonResponse
        { type := 7,
          data := some { content := some "Unknown action.", embeds := some [],
                         components := some [], flags := none } } 200 := by
  unfold handleButtonClick clickDecode
  simp [h]

/-- Claim C5: the match set is exactly the catalog items whose tag
string or url contains the search term as a case-insensitive substring;
in particular a term present only in the tags still matches, and a term
absent from both fields of every item yields zero matches. -/
theorem searchMatches_characterization :
    (∀ (q : String) (gifs : List Gif) (g : Gif),
        g ∈ searchMatches q gifs ↔ g ∈ gifs ∧ (tagCiMatch g q ∨ ciSubstr q g.url)) ∧
    (∀ (q : String) (gifs : List Gif) (g : Gif),
        g ∈ gifs → tagCiMatch g q → g ∈ searchMatches q gifs) ∧
    (∀ (q : String) (gifs : List Gif),
        (∀ g ∈ gifs, ¬ tagCiMatch g q ∧ ¬ ciSubstr q g.url) → searchMatches q gifs = []) := by
  refine ⟨searchMatches_mem_iff, ?_, ?_⟩
  · intro q gifs g hg ht
    exact (searchMatches_mem_iff q gifs g).mpr ⟨hg, Or.inl ht⟩
  · intro q gifs hnone
    unfold searchMatches
    rw [List.filter_eq_nil_iff]
    intro g hg
    rw [gifMatchesLower_iff]
    rintro (ht | hu)
    · exact (hnone g hg).1 ht
    · exact (hnone g hg).2 hu

/-- Witness for C5: a term occurring only in the tags (in different
case) puts the item in the match set. -/
theorem searchMatches_characterization_witness :
    gifTagOnly ∈ searchMatches "CAT" [gifTagOnly] :=
  searchMatches_characterization.2.1 "CAT" [gifTagOnly] gifTagOnly (by decide)
    ⟨"dog cat", rfl, by decide⟩

/-- Claim C10: an item whose tags field is missing, null or undefined
does not crash the filter (the embedding of the optional chaining is
total); it is in the match set exactly when its url contains the term
case-insensitively. -/
theorem missingTags_matchedByUrl (q : String) (gifs : List Gif) (g : Gif)
    (hg : g.tags = none) :
    g ∈ searchMatches q gifs ↔ g ∈ gifs ∧ ciSubstr q g.url := by
  rw [searchMatches_mem_iff]
  simp [tagCiMatch, hg]

/-- Witness for C10: an untagged item is matched through its url. -/
theorem missingTags_matchedByUrl_witness :
    gifNoTags ∈ searchMatches "CAT" [gifNoTags] :=
  (missingTags_matchedByUrl "CAT" [gifNoTags] gifNoTags rfl).mpr ⟨by decide, by decide⟩

/-- Claim C7: the top-level gates are total: a non-POST method yields
404 with no parse and no catalog fetch; a POST whose signature
verification returns false yields 401 with no parse and no catalog
fetch; a verified POST whose interaction type is none of ping (1),
command (2) or component click (3) yields 400 and no catalog fetch. -/
theorem fetch_gates (ed : EdOracle) (req : WorkerRequest) (env : Env)
    (parse : String → Interaction) (catalogApi : Except String CatalogHttpResponse)
    (pick : Nat) (shuf : Nat → Nat) :
    (req.method ≠ "POST" →
      fetch ed req env parse catalogApi pick shuf =
        { response := Except.ok { status := 404, body := ResponseBody.text "Not found" },
          parsedBody := false, fetchedCatalog := false }) ∧
    (req.method = "POST" →
      verifyDiscordSignature ed env.DISCORD_PUBLIC_KEY (req.sigHeader.getD "")
          (req.tsHeader.getD "") req.body = Except.ok false →
      fetch ed req env parse catalogApi pick shuf =
        { response := Except.ok { status := 401, body := ResponseBody.text "Invalid signature" },
          parsedBody := false, fetchedCatalog := false }) ∧
    (req.method = "POST" →
      verifyDiscordSignature ed env.DISCORD_PUBLIC_KEY (req.sigHeader.getD "")
          (req.tsHeader.getD "") req.body = Except.ok true →
      (parse req.body).type ≠ 1 → (parse req.body).type ≠ 2 → (parse req.body).type ≠ 3 →
      fetch ed req env parse catalogApi pick shuf =
        { response := Except.ok { status := 400, body := ResponseBody.text "Unknown interaction type" },
          parsedBody := true, fetchedCatalog := false }) := by
  refine ⟨?_, ?_, ?_⟩
  · intro hm
    unfold fetch
    rw [if_pos hm]
  · intro hm hv
    unfold fetch
    simp only [hm, hv]
    simp
  · intro hm hv h1 h2 h3
    unfold fetch
    simp only [hm, hv]
    simp [h1, h2, h3]

/-- Witness for C7 at three concrete requests, one per gate. -/
theorem fetch_gates_witness :
    (fetch edFalse { method := "GET", sigHeader := none, tsHeader := none, body := "" }
        envZeros (fun _ => blankCommand) (Except.error "e") 0 (fun _ => 0) =
      { response := Except.ok { status := 404, body := ResponseBody.text "Not found" },
        parsedBody := false, fetchedCatalog := false }) ∧
    (fetch edFalse { method := "POST", sigHeader := some "", tsHeader := some "", body := "" }
        envZeros (fun _ => blankCommand) (Except.error "e") 0 (fun _ => 0) =
      { response := Except.ok { status := 401, body := ResponseBody.text "Invalid signature" },
        parsedBody := false, fetchedCatalog := false }) ∧
    (fetch edTrue { method := "POST", sigHeader := some zeros128, tsHeader := some "", body := "" }
        envZeros (fun _ => { type := 9, options := [], custom_id := none, token := "" })
        (Except.error "e") 0 (fun _ => 0) =
      { response := Except.ok { status := 400, body := ResponseBody.text "Unknown interaction type" },
        parsedBody := true, fetchedCatalog := false }) :=
  ⟨(fetch_gates edFalse _ envZeros _ _ 0 _).1 (by decide),
   (fetch_gates edFalse _ envZeros _ _ 0 _).2.1 rfl rfl,
   (fetch_gates edTrue _ envZeros _ _ 0 _).2.2 rfl rfl (by decide) (by decide) (by decide)⟩

/-- Claim C4, counterexample: a search with exactly ten matches is shown
the truncation header, not the exact-count header the claim requires for
N = 10. -/
theorem picker_header_cex :
    contentOf (handleSlashCommand 0 (fun _ => 0) (Except.ok tenCats) searchCat) =
      some ("Showing 10 GIFs for **cat** — try a more specific search to narrow results.") ∧
    contentOf (handleSlashCommand 0 (fun _ => 0) (Except.ok tenCats) searchCat) ≠
      some ("Found 10 GIFs for **cat**") := by
  refine ⟨rfl, ?_⟩
  decide

/-- Claim C4, amended: a search with ten or more matches displays
exactly ten items under the truncation header (so also at exactly ten,
where the source cannot distinguish a full page from a truncated one);
a search with N matches, 1 ≤ N ≤ 9, displays all N items under the
exact-count header, with singular wording at N = 1 and plural wording
for N ≥ 2. -/
theorem picker_count_and_header (pick : Nat) (shuf : Nat → Nat) (gifs : List Gif)
    (i : Interaction) (hq : queryOf i ≠ "") :
    (10 ≤ (searchMatches (queryOf i) gifs).length →
        (embedsOf (handleSlashCommand pick shuf (Except.ok gifs) i)).length = 10 ∧
        contentOf (handleSlashCommand pick shuf (Except.ok gifs) i) =
          some ("Showing 10 GIFs for **" ++ queryOf i ++
            "** — try a more specific search to narrow results.")) ∧
    ((searchMatches (queryOf i) gifs).length = 1 →
        (embedsOf (handleSlashCommand pick shuf (Except.ok gifs) i)).length = 1 ∧
        contentOf (handleSlashCommand pick shuf (Except.ok gifs) i) =
          some ("Found 1 GIF for **" ++ queryOf i ++ "**")) ∧
    (2 ≤ (searchMatches (queryOf i) gifs).length →
        (searchMatches (queryOf i) gifs).length ≤ 9 →
        (embedsOf (handleSlashCommand pick shuf (Except.ok gifs) i)).length =
          (searchMatches (queryOf i) gifs).length ∧
        contentOf (handleSlashCommand pick shuf (Except.ok gifs) i) =
          some ("Found " ++ toString (searchMatches (queryOf i) gifs).length ++
            " GIFs for **" ++ queryOf i ++ "**")) := by
  refine ⟨?_, ?_, ?_⟩
  · intro h10
    obtain ⟨hemb, hcont, hlen⟩ := picker_result_parts pick shuf gifs i hq (by omega)
    have hmin : min MAX_GIFS_SHOWN (searchMatches (queryOf i) gifs).length = 10 := by
      unfold MAX_GIFS_SHOWN
      omega
    refine ⟨by rw [hemb, hmin], ?_⟩
    rw [hcont, headerText_of_len_ten _ _ (by rw [hlen, hmin])]
  · intro h1
    obtain ⟨hemb, hcont, hlen⟩ := picker_result_parts pick shuf gifs i hq (by omega)
    have hmin : min MAX_GIFS_SHOWN (searchMatches (queryOf i) gifs).length = 1 := by
      unfold MAX_GIFS_SHOWN
      omega
    refine ⟨by rw [hemb, hmin], ?_⟩
    rw [hcont, headerText_of_len_one _ _ (by rw [hlen, hmin])]
  · intro h2 h9
    obtain ⟨hemb, hcont, hlen⟩ := picker_result_parts pick shuf gifs i hq (by omega)
    have hmin : min MAX_GIFS_SHOWN (searchMatches (queryOf i) gifs).length =
        (searchMatches (queryOf i) gifs).length := by
      unfold MAX_GIFS_SHOWN
      omega
    refine ⟨by rw [hemb, hmin], ?_⟩
    rw [hcont, headerText_of_len_small _ _ (by rw [hlen, hmin]; exact h2) (by rw [hlen, hmin]; exact h9),
      hlen, hmin]

/-- Witness for the amended C4 at a single-match search. -/
theorem picker_count_and_header_witness :
    (embedsOf (handleSlashCommand 0 (fun _ => 0) (Except.ok [gifCat]) searchCat)).length = 1 ∧
    contentOf (handleSlashCommand 0 (fun _ => 0) (Except.ok [gifCat]) searchCat) =
      some ("Found 1 GIF for **" ++ queryOf searchCat ++ "**") :=
  (picker_count_and_header 0 (fun _ => 0) [gifCat] searchCat (by decide)).2.1 (by decide)

/-- Claim C8: in every response the command handler produces, buttons
are grouped into action rows of at most two, at most five rows are
produced, and at most ten buttons in total are carried; in particular
this bounds every multi-item picker message. -/
theorem picker_rows_bounded (pick : Nat) (shuf : Nat → Nat)
    (catalogResult : Except String (List Gif)) (i : Interaction) :
    (componentsOf (handleSlashCommand pick shuf catalogResult i)).length ≤ 5 ∧
    (∀ r ∈ componentsOf (handleSlashCommand pick shuf catalogResult i),
        r.components.length ≤ 2) ∧
    ((componentsOf (handleSlashCommand pick shuf catalogResult i)).map
        (fun r => r.components.length)).sum ≤ 10 := by
  cases catalogResult with
  | error e =>
    exact rows_bounds_of_nil rfl
  | ok allGifs =>
    by_cases hq : queryOf i = ""
    · cases hg : allGifs.get? (pick % max allGifs.length 1) with
      | none =>
        refine rows_bounds_of_nil ?_
        rw [List.get?_eq_getElem?] at hg
        unfold handleSlashCommand componentsOf dataOf
        simp [hq, hg]
      | some gif =>
        refine rows_bounds_of_nil ?_
        rw [List.get?_eq_getElem?] at hg
        unfold handleSlashCommand componentsOf dataOf
        simp [hq, hg, jsonResponse, buildSingleGifMessage]
    · by_cases hz : (searchMatches (queryOf i) allGifs).length = 0
      · refine rows_bounds_of_nil ?_
        unfold handleSlashCommand componentsOf dataOf
        simp [hq, hz, jsonResponse]
      · rw [handleSlash_search_branch pick shuf allGifs i hq hz]
        have hcomp : componentsOf (Except.ok (jsonResponse
            { type := 4,
              data := some (buildGifPicker
                ((shuffled shuf (searchMatches (queryOf i) allGifs)).take MAX_GIFS_SHOWN)
                (queryOf i)) } 200)) =
            (chunk2 ((shuffled shuf (searchMatches (queryOf i) allGifs)).take MAX_GIFS_SHOWN)).map
              (fun pair => { type := 1, components := pair.map buildButton }) := rfl
        have hlen : ((shuffled shuf (searchMatches (queryOf i) allGifs)).take MAX_GIFS_SHOWN).length ≤ 10 := by
          rw [List.length_take]
          unfold MAX_GIFS_SHOWN
          omega
        refine ⟨?_, ?_, ?_⟩
        · rw [hcomp, List.length_map, chunk2_length]
          omega
        · intro r hr
          rw [hcomp, List.mem_map] at hr
          obtain ⟨pair, hp, rfl⟩ := hr
          simpa [List.length_map] using chunk2_mem_length _ pair hp
        · rw [hcomp, List.map_map]
          have hmm : ((fun r : ActionRow => r.components.length) ∘
              (fun pair : List Gif => ({ type := 1, components := pair.map buildButton } : ActionRow))) =
              List.length := by
            funext pair
            simp
          rw [hmm]
          have hsum : ((chunk2 ((shuffled shuf (searchMatches (queryOf i) allGifs)).take MAX_GIFS_SHOWN)).map
              List.length).sum =
              ((shuffled shuf (searchMatches (queryOf i) allGifs)).take MAX_GIFS_SHOWN).length := by
            rw [← List.length_flatten, chunk2_flatten]
          rw [hsum]
          exact hlen

/-- Witness for C8: bounds instantiated at a concrete ten-match search,
including a concrete two-button row of its picker. -/
theorem picker_rows_bounded_witness :
    (componentsOf (handleSlashCommand 0 (fun _ => 0) (Except.ok tenCats) searchCat)).length ≤ 5 ∧
    ({ type := 1, components := [buildButton gifCat, buildButton gifCat] } : ActionRow).components.length ≤ 2 :=
  ⟨(picker_rows_bounded 0 (fun _ => 0) (Except.ok tenCats) searchCat).1,
   (picker_rows_bounded 0 (fun _ => 0) (Except.ok tenCats) searchCat).2.1 _ (by decide)⟩

/-- Witness for C9 at a concrete unrecognized identifier. -/
theorem buttonClick_unknownAction_witness :
    (handleButtonClick { type := 3, options := [], custom_id := some "nope", token := "t" }
        envZeros).fst =
      jsonResponse
        { type := 7,
          data := some { content := some "Unknown action.", embeds := some [],
                         components := some [], flags := none } } 200 :=
  buttonClick_unknownAction _ envZeros (by decide)

end GifLand
